import Mathlib

/-!
Shallow embedding of the WebSocket subsystem of this repository:
the tunnel actor with its frame translation (router/http/ws_proxy.rs)
and the session/correlation dispatch loop with its liveness supervisor
(handler/http/request/websocket/ws.rs).

Byte buffers are modelled as `List Nat`, text as `String`.  The helper
module `ws_utils` (registry maps, client/server message types) is not part
of the provided sources; its operations are modelled from the spec and
each such definition carries a doc comment starting with
"Modelled from the spec:".
-/

namespace OO

/-! ## Tunnel frame types (router/http/ws_proxy.rs) -/

/-- Close reason attached to an actix `ws::Message::Close` frame
(`actix_http::ws::CloseReason`: a close code and an optional description). -/
structure CloseReason where
  code : Nat
  description : Option String
deriving DecidableEq, Repr

/-- Close frame attached to a tungstenite `Message::Close`
(`tungstenite::protocol::CloseFrame`: a close code and a reason string). -/
structure CloseFrame where
  code : Nat
  reason : String
deriving DecidableEq, Repr

/-- The actix-side WebSocket message type `actix_web_actors::ws::Message`.
The payload of a continuation item is abstracted as its bytes. -/
inductive ActixMessage
  | text (s : String)
  | binary (b : List Nat)
  | continuation (b : List Nat)
  | ping (b : List Nat)
  | pong (b : List Nat)
  | close (r : Option CloseReason)
  | nop
deriving DecidableEq, Repr

/-- The tungstenite-side WebSocket message type `tungstenite::Message`.
The raw-frame variant is abstracted as its bytes. -/
inductive TMessage
  | text (s : String)
  | binary (b : List Nat)
  | ping (b : List Nat)
  | pong (b : List Nat)
  | close (r : Option CloseFrame)
  | frame (raw : List Nat)
deriving DecidableEq, Repr

/-- `fn from_actix_message(msg: ws::Message) -> tungstenite::Message` of
ws_proxy.rs: kind-preserving translation on text, binary, ping, pong and
bare close; every other message kind becomes a bare close. -/
def from_actix_message : ActixMessage → TMessage
  | .text s => .text s
  | .binary b => .binary b
  | .ping b => .ping b
  | .pong b => .pong b
  | .close none => .close none
  | _ => .close none

/-- `fn from_tungstenite_msg_to_actix_msg(msg: tungstenite::Message) -> ws::Message`
of ws_proxy.rs: kind-preserving translation on text, binary, ping, pong and
bare close; every other message kind becomes a bare close. -/
def from_tungstenite_msg_to_actix_msg : TMessage → ActixMessage
  | .text s => .text s
  | .binary b => .binary b
  | .ping b => .ping b
  | .pong b => .pong b
  | .close none => .close none
  | _ => .close none

/-- One item of the client-facing frame stream,
`Result<ws::Message, ws::ProtocolError>`. -/
inductive RecvFrame
  | ok (m : ActixMessage)
  | protocolError
deriving DecidableEq, Repr

/-- `impl StreamHandler<Result<ws::Message, ws::ProtocolError>> for
CustomWebSocketHandlers`: the list of messages the handler pushes onto the
internal unbounded queue (`self.tx`) for one received item.  Only text and
binary frames are forwarded; every other item falls into the final
catch-all arm, which does nothing (the handler never stops the actor). -/
def streamHandlerQueue : RecvFrame → List ActixMessage
  | .ok (.text s) => [.text s]
  | .ok (.binary b) => [.binary b]
  | _ => []

/-- Composition of the client-to-upstream path: what the queue-draining
task writes to the upstream sink (`ws_sink.send(from_actix_message(msg))`)
for one client frame received by the stream handler. -/
def inboundToUpstream (m : RecvFrame) : List TMessage :=
  (streamHandlerQueue m).map from_actix_message

/-- Effect the wrapper handler performs on the client-facing context
(`ws::WebsocketContext`) for one message delivered to the actor mailbox. -/
inductive ClientCtxEffect
  | text (s : String)
  | binary (b : List Nat)
  | ping (b : List Nat)
  | pong (b : List Nat)
  | close (r : Option CloseReason)
  | logUnsupported
deriving DecidableEq, Repr

/-- `impl Handler<WebSocketMessageWrapper> for CustomWebSocketHandlers`:
dispatches the wrapped actix message onto the client connection, one
context call per message kind; the catch-all arm only logs. -/
def wrapperHandle : ActixMessage → ClientCtxEffect
  | .text s => .text s
  | .binary b => .binary b
  | .ping b => .ping b
  | .pong b => .pong b
  | .close r => .close r
  | _ => .logUnsupported

/-- Composition of the upstream-to-client path: each message read from the
upstream stream is translated with `from_tungstenite_msg_to_actix_msg` and
sent to the actor, whose handler performs the client-context effect. -/
def upstreamToClient (m : TMessage) : ClientCtxEffect :=
  wrapperHandle (from_tungstenite_msg_to_actix_msg m)

/-- Outcome of the tunnel setup task spawned in `Actor::started`. -/
inductive SetupOutcome
  | panicked (msg : String)
  | connected
deriving DecidableEq, Repr

/-- The connect step of the setup task in `Actor::started`:
`connect_async(&url_to_connect).await.expect("Failed to connect")`.
The argument is the result of `connect_async`; on error the task panics
with the expect message, on success the forwarding loops run. -/
def startedConnect : Except String Unit → SetupOutcome
  | .error _ => .panicked "Failed to connect"
  | .ok _ => .connected

/-! ## Session, correlation state and client/server messages
(handler/http/request/websocket/ws.rs together with the `ws_utils` module,
which is not among the provided sources and is modelled from the spec). -/

/-- Modelled from the spec: the query payload a client attaches to a
search declaration is an arbitrary JSON object; it is kept opaque here and
represented by its JSON text. -/
abbrev Query := String

/-- One accepted client WebSocket connection (`actix_ws::Session`),
identified opaquely. -/
structure Session where
  sid : String
deriving DecidableEq, Repr

/-- Modelled from the spec: the client-to-server message schema
(`WSClientMessage` of the missing ws_utils): a tagged object that always
carries a trace id and, for the search variant, an attached query payload;
other recognized variants carry only their trace id. -/
inductive WSClientMessage
  | search (t : String) (query : Query)
  | other (t : String)
deriving DecidableEq, Repr

/-- The trace id carried by any client message variant. -/
def WSClientMessage.trace_id : WSClientMessage → String
  | .search t _ => t
  | .other t => t

/-- Modelled from the spec: the tagged payload of a bus event
(`WebSocketMessageType` of the missing ws_utils): a query-enqueued variant
that may carry a query, and generic result payloads delivered as-is. -/
inductive WebSocketMessageType
  | queryEnqueued (query : Option Query)
  | result (body : String)
deriving DecidableEq, Repr

/-- Modelled from the spec: a bus event carries a user id, a trace id and
a tagged payload. -/
structure WSEvent where
  user_id : String
  trace_id : String
  payload : WebSocketMessageType
deriving DecidableEq, Repr

/-- Modelled from the spec: `update_payload` merges a cached query into an
enqueued event payload, producing the merged form that reunites the event
with the query the client originally attached. -/
def WSEvent.update_payload (m : WSEvent) (q : Query) : WSEvent :=
  { m with payload := .queryEnqueued (some q) }

/-- Modelled from the spec: serialization of a tagged payload to JSON text
(the enqueued variant optionally carrying its merged query). -/
def serializePayload : WebSocketMessageType → String
  | .queryEnqueued none => "\x7b\"type\":\"QueryEnqueued\"\x7d"
  | .queryEnqueued (some q) => "\x7b\"type\":\"QueryEnqueued\",\"query\":" ++ q ++ "\x7d"
  | .result body => body

/-- Modelled from the spec: `serde_json::to_string` on a bus event — the
event structure serialized verbatim as a JSON object. -/
def serializeEvent (m : WSEvent) : String :=
  "\x7b\"user_id\":\"" ++ m.user_id ++ "\",\"trace_id\":\"" ++ m.trace_id ++
    "\",\"payload\":" ++ serializePayload m.payload ++ "\x7d"

/-- Insert into an association-list map, overwriting any previous binding
of the key (last-writer-wins, as the spec requires of registry inserts). -/
def assocInsert {α : Type} (k : String) (v : α) (m : List (String × α)) :
    List (String × α) :=
  (k, v) :: m.filter (fun p => p.1 != k)

/-- Remove every binding of a key from an association-list map. -/
def assocRemove {α : Type} (k : String) (m : List (String × α)) :
    List (String × α) :=
  m.filter (fun p => p.1 != k)

/-- The process-wide shared correlation state: the session registry
(request id to session), the correlation map (trace id to request id), the
pending query cache (trace id to query payload), and the shared liveness
clock (seconds, written by the read loop on pong receipt). -/
structure WSState where
  sessions : List (String × Session)
  traceToReq : List (String × String)
  queryCache : List (String × Query)
  alive : Nat
deriving DecidableEq, Repr

/-- Modelled from the spec: `register_session` — inserts or overwrites the
registry entry for a request id. -/
def insert_in_ws_session_by_req_id (reqId : String) (s : Session)
    (st : WSState) : WSState :=
  { st with sessions := assocInsert reqId s st.sessions }

/-- Modelled from the spec: `lookup_session` — finds the live session
registered under a request id, if any. -/
def get_ws_session_by_req_id (reqId : String) (st : WSState) :
    Option Session :=
  st.sessions.lookup reqId

/-- Modelled from the spec: `unregister_session` — removes the registry
entry for a request id. -/
def remove_from_ws_session_by_req_id (reqId : String) (st : WSState) :
    WSState :=
  { st with sessions := assocRemove reqId st.sessions }

/-- Modelled from the spec: `register_trace` — records that the session of
the given request id awaits results for the trace id. -/
def insert_trace_id_to_req_id (traceId reqId : String) (st : WSState) :
    WSState :=
  { st with traceToReq := assocInsert traceId reqId st.traceToReq }

/-- Modelled from the spec: `resolve_trace` — the request id a trace id is
correlated with, if any. -/
def get_req_id_from_trace_id (traceId : String) (st : WSState) :
    Option String :=
  st.traceToReq.lookup traceId

/-- Modelled from the spec: `cache_query` — stores the query payload a
client attached to a trace registration. -/
def insert_in_ws_trace_id_query_object (traceId : String) (q : Query)
    (st : WSState) : WSState :=
  { st with queryCache := assocInsert traceId q st.queryCache }

/-- Modelled from the spec: `take_query` — consuming read of the pending
query cache: returns the cached payload and removes the entry on a hit. -/
def get_ws_trace_id_query_object (traceId : String) (st : WSState) :
    Option Query × WSState :=
  match st.queryCache.lookup traceId with
  | some q => (some q, { st with queryCache := assocRemove traceId st.queryCache })
  | none => (none, st)

/-- Modelled from the spec: `retire_trace` — removes the trace-to-request
correlation entry after a successful delivery. -/
def remove_trace_id_from_cache (traceId : String) (st : WSState) : WSState :=
  { st with traceToReq := assocRemove traceId st.traceToReq }

/-! ## The per-session dispatch loop (`websocket_handler` in ws.rs). -/

/-- One client frame as matched by the dispatch loop.  A text frame is
represented by the result of `serde_json::from_str::<WSClientMessage>` on
its content (`none` models content that fails to parse); a pong frame
carries the instant at which it is received (written into the liveness
clock); binary and nop frames fall under `otherFrame`. -/
inductive ClientFrame
  | ping (b : List Nat)
  | text (parsed : Option WSClientMessage)
  | close (r : Option CloseReason)
  | continuation
  | pong (now : Nat)
  | otherFrame
deriving DecidableEq, Repr

/-- One input the `tokio::select!` of the dispatch loop can wake on: a
client frame from the message stream (`none` is an `Err(ProtocolError)`
item), a bus event from the broadcast receiver, or both sources closed
(the `else` branch of the select). -/
inductive LoopInput
  | client (f : Option ClientFrame)
  | bus (e : WSEvent)
  | closed
deriving DecidableEq, Repr

/-- Observable action of one dispatch-loop iteration: a pong reply on the
own session, a close on the own session, a text send to a registry session
(`ok` records whether the transport send succeeded), or an error log. -/
inductive Action
  | pongReply (b : List Nat)
  | closeOwn (r : Option CloseReason)
  | sendText (s : Session) (payload : String) (ok : Bool)
  | logError (tag : String)
deriving DecidableEq, Repr

/-- Whether an action is a successfully transmitted text delivery. -/
def Action.isOkSend : Action → Bool
  | .sendText _ _ true => true
  | _ => false

/-- Whether an action is a text delivery attempt (successful or not). -/
def Action.isSendText : Action → Bool
  | .sendText _ _ _ => true
  | _ => false

/-- Result of one dispatch-loop iteration: continue looping, exit by
`return` (skipping the final close after the loop), or exit by `break`
(falling through to the final close after the loop). -/
inductive StepRes
  | cont (st : WSState) (out : List Action)
  | exitReturn (st : WSState) (out : List Action)
  | exitBreak (st : WSState) (out : List Action)
deriving DecidableEq, Repr

/-- The state carried (for any iteration result). -/
def StepRes.state : StepRes → WSState
  | .cont st _ => st
  | .exitReturn st _ => st
  | .exitBreak st _ => st

/-- The actions emitted (for any iteration result). -/
def StepRes.out : StepRes → List Action
  | .cont _ out => out
  | .exitReturn _ out => out
  | .exitBreak _ out => out

/-- Whether the iteration result keeps the loop going. -/
def StepRes.isCont : StepRes → Bool
  | .cont _ _ => true
  | _ => false

/-- The query-cache consultation the bus branch performs before
serializing: for an enqueued payload, the consuming `take_query` read for
the trace of the event; for any other payload, no read and the state is
untouched. -/
def busTaken (e : WSEvent) (st : WSState) : Option Query × WSState :=
  match e.payload with
  | .queryEnqueued _ => get_ws_trace_id_query_object e.trace_id st
  | _ => (none, st)

/-- The event the bus branch serializes: the event merged with the taken
cached query when one was found, the event unmodified otherwise. -/
def busData (e : WSEvent) : Option Query → WSEvent
  | some q => e.update_payload q
  | none => e

/-- One iteration of the select loop of `websocket_handler`.  `requestId`
is the request id of this connection; `sendOk` is the transport outcome of
the single fallible send the iteration may perform (the pong reply in the
ping branch, the text send in the bus branch).  Branches follow the source:
a ping is answered with a pong and a failed pong returns; a parsed text
frame registers the trace correlation and, for a search declaration, also
caches its query; a parse failure only logs; a close frame echoes the
close and returns; a continuation closes bare and returns; a pong refreshes
the liveness clock; a bus event is delivered to the session resolved
through the correlation map and registry — an enqueued payload is first
merged with the consumed cached query — and the loop breaks after the send,
retiring the trace only when the send succeeded; an unresolvable event is
logged and dropped.  Error-level logs are modelled; info-level logs and the
debug printouts are not. -/
def step (requestId : String) (sendOk : Bool) (st : WSState) :
    LoopInput → StepRes
  | .client none => .cont st []
  | .client (some (.ping b)) =>
    if sendOk then .cont st [.pongReply b]
    else .exitReturn st [.pongReply b]
  | .client (some (.text parsed)) =>
    match parsed with
    | some m =>
      let st1 := insert_trace_id_to_req_id m.trace_id requestId st
      match m with
      | .search t q => .cont (insert_in_ws_trace_id_query_object t q st1) []
      | .other _ => .cont st1 []
    | none => .cont st [.logError "parse failure"]
  | .client (some (.close r)) => .exitReturn st [.closeOwn r]
  | .client (some .continuation) => .exitReturn st [.closeOwn none]
  | .client (some (.pong now)) => .cont { st with alive := now } []
  | .client (some .otherFrame) => .cont st []
  | .bus e =>
    match get_req_id_from_trace_id e.trace_id st with
    | some reqId =>
      match get_ws_session_by_req_id reqId st with
      | some sess =>
        let taken := busTaken e st
        let payload := serializeEvent (busData e taken.1)
        if sendOk then
          .exitBreak (remove_trace_id_from_cache e.trace_id taken.2)
            [.sendText sess payload true]
        else
          .exitBreak taken.2
            [.sendText sess payload false, .logError "send error"]
      | none => .cont st [.logError "no session"]
    | none => .cont st [.logError "no session"]
  | .closed => .exitBreak st []

/-- Result of running the dispatch loop on a finite trace of inputs:
final state, emitted actions, and whether the loop has exited (`false`
when the trace is exhausted while the loop is still live). -/
structure RunResult where
  state : WSState
  out : List Action
  finished : Bool
deriving DecidableEq, Repr

/-- The dispatch loop of `websocket_handler` run over a trace of inputs,
each paired with the transport outcome of its fallible send.  A `break`
exit appends the final best-effort `session.close(None)` that follows the
loop in the source; a `return` exit skips it. -/
def run (requestId : String) (st : WSState) :
    List (LoopInput × Bool) → RunResult
  | [] => ⟨st, [], false⟩
  | (inp, ok) :: rest =>
    match step requestId ok st inp with
    | .cont st1 out =>
      let r := run requestId st1 rest
      ⟨r.state, out ++ r.out, r.finished⟩
    | .exitReturn st1 out => ⟨st1, out, true⟩
    | .exitBreak st1 out => ⟨st1, out ++ [.closeOwn none], true⟩

/-! ## The liveness supervisor (`aliveness_check` in ws.rs). -/

/-- Observable action of one supervisor tick: the ping written to the
client, the error log when that ping fails, the timeout error log, and the
best-effort close on timeout. -/
inductive SupAction
  | pingClient
  | logPingFailure
  | logTimeout
  | closeOwn
deriving DecidableEq, Repr

/-- One 10-second tick of the supervisor loop in `aliveness_check`: ping
the session (a failure is only logged), then terminate the session — close
best effort, unregister, break — exactly when more than 30 seconds have
passed since the liveness clock was last refreshed.  `now` and `alive` are
the instants read at this tick (seconds); the elapsed time uses saturating
subtraction as `Instant::duration_since` does. -/
def aliveness_tick (userSessionId : String) (pingOk : Bool)
    (now alive : Nat) (st : WSState) : WSState × List SupAction × Bool :=
  let pingActs : List SupAction :=
    if pingOk then [.pingClient] else [.pingClient, .logPingFailure]
  if 30 < now - alive then
    (remove_from_ws_session_by_req_id userSessionId st,
      pingActs ++ [.logTimeout, .closeOwn], true)
  else
    (st, pingActs, false)

/-- The supervisor loop run over a trace of ticks, each carrying the ping
transport outcome and the `now` and `alive` instants read at that tick;
the loop stops at the first terminating tick. -/
def aliveness_run (userSessionId : String) (st : WSState) :
    List (Bool × Nat × Nat) → WSState × List SupAction × Bool
  | [] => (st, [], false)
  | (ok, now, alive) :: rest =>
    let r := aliveness_tick userSessionId ok now alive st
    if r.2.2 then r
    else
      let r2 := aliveness_run userSessionId r.1 rest
      (r2.1, r.2.1 ++ r2.2.1, r2.2.2)

/-! ## Helper lemmas -/

/-- Looking a key up after filtering out all of its bindings yields
nothing. -/
theorem lookup_filter_bne {α : Type} (k : String) (m : List (String × α)) :
    (m.filter (fun p => p.1 != k)).lookup k = none := by
  induction m with
  | nil => rfl
  | cons p rest ih =>
    rw [List.filter_cons]
    by_cases h : p.1 = k
    · simp only [h, bne_self_eq_false, if_false]
      exact ih
    · have hb : (p.1 != k) = true := by simp [bne, h]
      rw [hb, if_pos rfl, List.lookup_cons]
      have hk : (k == p.1) = false := by
        simp [BEq.beq]
        exact fun hkk => h hkk.symm
      rw [hk]
      exact ih

/-- Removing a key from an association-list map makes it unresolvable. -/
theorem lookup_assocRemove {α : Type} (k : String) (m : List (String × α)) :
    (assocRemove k m).lookup k = none :=
  lookup_filter_bne k m

/-- The consuming cache read of the bus branch never touches the session
registry or the correlation map. -/
theorem busTaken_preserves (e : WSEvent) (st : WSState) :
    (busTaken e st).2.sessions = st.sessions ∧
    (busTaken e st).2.traceToReq = st.traceToReq ∧
    (busTaken e st).2.alive = st.alive := by
  unfold busTaken get_ws_trace_id_query_object
  cases e.payload with
  | queryEnqueued oq =>
    cases h : st.queryCache.lookup e.trace_id <;> simp [h]
  | result body => simp

/-- The cache read of the bus branch for a non-enqueued payload leaves the
whole state untouched. -/
theorem busTaken_result (e : WSEvent) (st : WSState) (body : String)
    (hp : e.payload = WebSocketMessageType.result body) :
    busTaken e st = (none, st) := by
  unfold busTaken
  rw [hp]

/-- The step of the bus branch when the trace resolves to a request id
holding a live session: an enqueued payload is merged with the consumed
cached query, the result is serialized and sent to that session, and the
iteration breaks — retiring the trace exactly when the send succeeded. -/
theorem step_bus_found (rid0 : String) (sendOk : Bool) (st : WSState)
    (e : WSEvent) (reqId : String) (sess : Session)
    (h1 : get_req_id_from_trace_id e.trace_id st = some reqId)
    (h2 : get_ws_session_by_req_id reqId st = some sess) :
    step rid0 sendOk st (LoopInput.bus e) =
      if sendOk then
        StepRes.exitBreak
          (remove_trace_id_from_cache e.trace_id (busTaken e st).2)
          [Action.sendText sess (serializeEvent (busData e (busTaken e st).1)) true]
      else
        StepRes.exitBreak (busTaken e st).2
          [Action.sendText sess (serializeEvent (busData e (busTaken e st).1)) false,
            Action.logError "send error"] := by
  simp only [step, h1, h2]

/-- The step of the bus branch when the trace does not resolve: the event
is logged and dropped, the loop continues, the state is untouched. -/
theorem step_bus_unresolved (rid0 : String) (sendOk : Bool) (st : WSState)
    (e : WSEvent)
    (h1 : get_req_id_from_trace_id e.trace_id st = none) :
    step rid0 sendOk st (LoopInput.bus e) =
      StepRes.cont st [Action.logError "no session"] := by
  simp only [step, h1]

/-- A continuing iteration of the dispatch loop has delivered nothing:
successful text sends occur only in breaking iterations. -/
theorem step_cont_no_send (requestId : String) (sendOk : Bool)
    (st : WSState) (inp : LoopInput)
    (h : (step requestId sendOk st inp).isCont = true) :
    (step requestId sendOk st inp).out.countP Action.isOkSend = 0 := by
  cases inp with
  | closed => simp [step, StepRes.isCont] at h
  | client f =>
    match f with
    | none => rfl
    | some (.ping b) =>
      by_cases hs : sendOk <;>
        simp [step, hs, StepRes.out, List.countP_cons, Action.isOkSend]
    | some (.text parsed) =>
      match parsed with
      | none => rfl
      | some (.search t q) => rfl
      | some (.other t) => rfl
    | some (.close r) => rfl
    | some .continuation => rfl
    | some (.pong now) => rfl
    | some .otherFrame => rfl
  | bus e =>
    cases hr : get_req_id_from_trace_id e.trace_id st with
    | none =>
      rw [step_bus_unresolved requestId sendOk st e hr]
      simp [StepRes.out, List.countP_cons, Action.isOkSend]
    | some reqId =>
      cases hsess : get_ws_session_by_req_id reqId st with
      | none =>
        simp only [step, hr, hsess]
        simp [StepRes.out, List.countP_cons, Action.isOkSend]
      | some sess =>
        rw [step_bus_found requestId sendOk st e reqId sess hr hsess] at h
        by_cases hs : sendOk <;> simp [hs, StepRes.isCont] at h

/-- No iteration of the dispatch loop delivers more than one successful
text send. -/
theorem step_out_le_one (requestId : String) (sendOk : Bool)
    (st : WSState) (inp : LoopInput) :
    (step requestId sendOk st inp).out.countP Action.isOkSend ≤ 1 := by
  cases inp with
  | closed => simp [step, StepRes.out]
  | client f =>
    match f with
    | none => simp [step, StepRes.out]
    | some (.ping b) =>
      by_cases hs : sendOk <;>
        simp [step, hs, StepRes.out, List.countP_cons, Action.isOkSend]
    | some (.text parsed) =>
      match parsed with
      | none => simp [step, StepRes.out, List.countP_cons, Action.isOkSend]
      | some (.search t q) => simp [step, StepRes.out]
      | some (.other t) => simp [step, StepRes.out]
    | some (.close r) =>
      simp [step, StepRes.out, List.countP_cons, Action.isOkSend]
    | some .continuation =>
      simp [step, StepRes.out, List.countP_cons, Action.isOkSend]
    | some (.pong now) => simp [step, StepRes.out]
    | some .otherFrame => simp [step, StepRes.out]
  | bus e =>
    cases hr : get_req_id_from_trace_id e.trace_id st with
    | none =>
      rw [step_bus_unresolved requestId sendOk st e hr]
      simp [StepRes.out, List.countP_cons, Action.isOkSend]
    | some reqId =>
      cases hsess : get_ws_session_by_req_id reqId st with
      | none =>
        simp only [step, hr, hsess]
        simp [StepRes.out, List.countP_cons, Action.isOkSend]
      | some sess =>
        rw [step_bus_found requestId sendOk st e reqId sess hr hsess]
        by_cases hs : sendOk <;>
          simp [hs, StepRes.out, List.countP_cons, Action.isOkSend]

/-- Over any finite trace of inputs, the dispatch loop performs at most
one successful text delivery. -/
theorem run_at_most_one_send (requestId : String) (st : WSState)
    (inputs : List (LoopInput × Bool)) :
    (run requestId st inputs).out.countP Action.isOkSend ≤ 1 := by
  induction inputs generalizing st with
  | nil => simp [run]
  | cons p rest ih =>
    obtain ⟨inp, ok⟩ := p
    unfold run
    cases hstep : step requestId ok st inp with
    | cont st1 out =>
      have h0 : out.countP Action.isOkSend = 0 := by
        have hc := step_cont_no_send requestId ok st inp
          (by rw [hstep]; rfl)
        rwa [hstep] at hc
      simpa [List.countP_append, h0] using ih st1
    | exitReturn st1 out =>
      have hle := step_out_le_one requestId ok st inp
      rwa [hstep] at hle
    | exitBreak st1 out =>
      have hle := step_out_le_one requestId ok st inp
      rw [hstep] at hle
      simpa [List.countP_append, Action.isOkSend] using hle

/-- The cache consultation of the bus branch on an enqueued payload with a
cache hit: the entry is returned and consumed. -/
theorem busTaken_enqueued_hit (e : WSEvent) (st : WSState) (oq : Option Query)
    (q : Query) (hp : e.payload = WebSocketMessageType.queryEnqueued oq)
    (hq : st.queryCache.lookup e.trace_id = some q) :
    busTaken e st =
      (some q, { st with queryCache := assocRemove e.trace_id st.queryCache }) := by
  simp only [busTaken, hp, get_ws_trace_id_query_object, hq]

/-- The cache consultation of the bus branch on an enqueued payload with
no cache entry: nothing is returned and the state is untouched. -/
theorem busTaken_enqueued_miss (e : WSEvent) (st : WSState) (oq : Option Query)
    (hp : e.payload = WebSocketMessageType.queryEnqueued oq)
    (hq : st.queryCache.lookup e.trace_id = none) :
    busTaken e st = (none, st) := by
  simp only [busTaken, hp, get_ws_trace_id_query_object, hq]

/-- The dispatch loop on a trace beginning with a resolvable bus event
whose send succeeds: exactly the one text delivery followed by the final
close is emitted, the trace is retired, and the loop is finished — the
remaining inputs are never looked at. -/
theorem run_first_bus_delivery (rid0 : String) (st : WSState) (e : WSEvent)
    (reqId : String) (sess : Session) (rest : List (LoopInput × Bool))
    (h1 : get_req_id_from_trace_id e.trace_id st = some reqId)
    (h2 : get_ws_session_by_req_id reqId st = some sess) :
    run rid0 st ((LoopInput.bus e, true) :: rest) =
      ⟨remove_trace_id_from_cache e.trace_id (busTaken e st).2,
        [Action.sendText sess (serializeEvent (busData e (busTaken e st).1)) true,
          Action.closeOwn none], true⟩ := by
  simp only [run, step_bus_found rid0 true st e reqId sess h1 h2, if_true]
  rfl

/-- Within-window ticks never terminate the supervisor and never mutate
the registry state. -/
theorem aliveness_run_within_window (uid : String) (st : WSState)
    (ticks : List (Bool × Nat × Nat))
    (h : ∀ p ∈ ticks, p.2.1 - p.2.2 ≤ 30) :
    (aliveness_run uid st ticks).2.2 = false ∧
      (aliveness_run uid st ticks).1 = st := by
  induction ticks generalizing st with
  | nil => exact ⟨rfl, rfl⟩
  | cons p rest ih =>
    obtain ⟨ok, now, alive⟩ := p
    have hp0 : now - alive ≤ 30 := h (ok, now, alive) (List.mem_cons_self _ _)
    have hrest : ∀ q ∈ rest, q.2.1 - q.2.2 ≤ 30 :=
      fun q hq => h q (List.mem_cons_of_mem _ hq)
    have hnot : ¬ 30 < now - alive := Nat.not_lt.mpr hp0
    obtain ⟨ha, hb⟩ := ih st hrest
    simp only [aliveness_run, aliveness_tick, if_neg hnot]
    exact ⟨ha, hb⟩

/-! ## Claims about the tunnel (ws_proxy.rs) -/

/-- C1 counterexample: the claim states that a ping frame from the client
is translated and written to the outbound sink through the internal
queue, but the stream handler forwards nothing for a ping — the queue
output, and hence the translated sink output, is empty rather than the
equivalent ping frame. -/
theorem c1_counterexample :
    inboundToUpstream (RecvFrame.ok (ActixMessage.ping [1])) = [] ∧
    inboundToUpstream (RecvFrame.ok (ActixMessage.ping [1])) ≠
      [TMessage.ping [1]] := by
  exact ⟨rfl, by decide⟩

/-- C1 (amended): only text and binary frames received from the client
are written to the outbound sink through the internal unbounded queue,
translated kind- and payload-preservingly; ping, pong and bare-close
frames from the client are dropped by the stream handler and nothing is
queued for them. -/
theorem c1_only_text_binary_forwarded :
    (∀ s, inboundToUpstream (RecvFrame.ok (ActixMessage.text s)) =
      [TMessage.text s]) ∧
    (∀ b, inboundToUpstream (RecvFrame.ok (ActixMessage.binary b)) =
      [TMessage.binary b]) ∧
    (∀ b, inboundToUpstream (RecvFrame.ok (ActixMessage.ping b)) = []) ∧
    (∀ b, inboundToUpstream (RecvFrame.ok (ActixMessage.pong b)) = []) ∧
    inboundToUpstream (RecvFrame.ok (ActixMessage.close none)) = [] :=
  ⟨fun _ => rfl, fun _ => rfl, fun _ => rfl, fun _ => rfl, rfl⟩

/-- C6: the two frame-translation functions are mutually inverse on the
supported frame kinds — text, binary, ping, pong and bare close round-trip
in both orders with kind and payload preserved. -/
theorem c6_translation_roundtrip :
    (∀ s, from_tungstenite_msg_to_actix_msg
        (from_actix_message (ActixMessage.text s)) = ActixMessage.text s) ∧
    (∀ b, from_tungstenite_msg_to_actix_msg
        (from_actix_message (ActixMessage.binary b)) = ActixMessage.binary b) ∧
    (∀ b, from_tungstenite_msg_to_actix_msg
        (from_actix_message (ActixMessage.ping b)) = ActixMessage.ping b) ∧
    (∀ b, from_tungstenite_msg_to_actix_msg
        (from_actix_message (ActixMessage.pong b)) = ActixMessage.pong b) ∧
    from_tungstenite_msg_to_actix_msg
      (from_actix_message (ActixMessage.close none)) = ActixMessage.close none ∧
    (∀ s, from_actix_message
        (from_tungstenite_msg_to_actix_msg (TMessage.text s)) = TMessage.text s) ∧
    (∀ b, from_actix_message
        (from_tungstenite_msg_to_actix_msg (TMessage.binary b)) = TMessage.binary b) ∧
    (∀ b, from_actix_message
        (from_tungstenite_msg_to_actix_msg (TMessage.ping b)) = TMessage.ping b) ∧
    (∀ b, from_actix_message
        (from_tungstenite_msg_to_actix_msg (TMessage.pong b)) = TMessage.pong b) ∧
    from_actix_message
      (from_tungstenite_msg_to_actix_msg (TMessage.close none)) = TMessage.close none :=
  ⟨fun _ => rfl, fun _ => rfl, fun _ => rfl, fun _ => rfl, rfl,
    fun _ => rfl, fun _ => rfl, fun _ => rfl, fun _ => rfl, rfl⟩

/-- C7 counterexample: the claim states that a close frame carrying a
reason, from either side, tears the tunnel down with the frame rendered as
a bare close; but a close-with-reason from the client is silently dropped
by the stream handler — nothing at all (in particular no bare close) is
queued toward upstream. -/
theorem c7_counterexample :
    inboundToUpstream
      (RecvFrame.ok (ActixMessage.close (some ⟨1000, none⟩))) = [] ∧
    inboundToUpstream
      (RecvFrame.ok (ActixMessage.close (some ⟨1000, none⟩))) ≠
      [TMessage.close none] := by
  exact ⟨rfl, by decide⟩

/-- C7 (amended): a frame outside the supported translation set from the
client side (close-with-reason, continuation) is silently dropped by the
stream handler — nothing is forwarded upstream and no teardown is issued
by that handler; on the upstream side such a frame (close-with-reason,
raw frame) is rendered as a bare close and delivered to the client as the
close of its connection, with no reply sent back to upstream. -/
theorem c7_unsupported_frames :
    (∀ r, streamHandlerQueue
        (RecvFrame.ok (ActixMessage.close (some r))) = []) ∧
    (∀ b, streamHandlerQueue
        (RecvFrame.ok (ActixMessage.continuation b)) = []) ∧
    (∀ f, upstreamToClient (TMessage.close (some f)) =
      ClientCtxEffect.close none) ∧
    (∀ raw, upstreamToClient (TMessage.frame raw) =
      ClientCtxEffect.close none) :=
  ⟨fun _ => rfl, fun _ => rfl, fun _ => rfl, fun _ => rfl⟩

/-- C9: when the outbound connection to the upstream URL cannot be
established, the setup task panics with the expect message rather than
returning a recoverable result. -/
theorem c9_connect_failure_panics (err : String) :
    startedConnect (Except.error err) =
      SetupOutcome.panicked "Failed to connect" :=
  rfl

/-! ## Claims about the dispatch loop and supervisor (ws.rs) -/

/-- C2: for a trace registered to a request id holding a live session and
matched by one bus event, the loop emits exactly one text delivery to that
session (followed only by the final close); the trace-to-request entry is
retired immediately after the successful send; and a second bus event with
the same trace id, arriving after retirement, is logged and dropped by a
dispatch step without any message being sent. -/
theorem c2_at_most_once_delivery (rid0 : String) (st : WSState)
    (e e2 : WSEvent) (reqId : String) (sess : Session)
    (h1 : get_req_id_from_trace_id e.trace_id st = some reqId)
    (h2 : get_ws_session_by_req_id reqId st = some sess)
    (he2 : e2.trace_id = e.trace_id) :
    (run rid0 st [(LoopInput.bus e, true), (LoopInput.bus e2, true)]).out =
      [Action.sendText sess (serializeEvent (busData e (busTaken e st).1)) true,
        Action.closeOwn none] ∧
    get_req_id_from_trace_id e.trace_id
      (run rid0 st [(LoopInput.bus e, true), (LoopInput.bus e2, true)]).state =
      none ∧
    step rid0 true
      (run rid0 st [(LoopInput.bus e, true), (LoopInput.bus e2, true)]).state
      (LoopInput.bus e2) =
      StepRes.cont
        (run rid0 st [(LoopInput.bus e, true), (LoopInput.bus e2, true)]).state
        [Action.logError "no session"] := by
  have hrun := run_first_bus_delivery rid0 st e reqId sess
    [(LoopInput.bus e2, true)] h1 h2
  rw [hrun]
  have hnone : get_req_id_from_trace_id e.trace_id
      (remove_trace_id_from_cache e.trace_id (busTaken e st).2) = none :=
    lookup_assocRemove e.trace_id (busTaken e st).2.traceToReq
  refine ⟨rfl, hnone, ?_⟩
  apply step_bus_unresolved
  rw [he2]
  exact hnone

/-- C2 witness: a concrete session registered under request id r1 with
trace t1 registered, matched by two bus events for t1. -/
theorem c2_witness :
    (run "r1" (⟨[("r1", ⟨"s1"⟩)], [("t1", "r1")], [], 0⟩ : WSState)
        [(LoopInput.bus ⟨"u1", "t1", WebSocketMessageType.result "RES"⟩, true),
          (LoopInput.bus ⟨"u2", "t1", WebSocketMessageType.result "RES2"⟩, true)]).out =
      [Action.sendText ⟨"s1"⟩
          (serializeEvent (busData ⟨"u1", "t1", WebSocketMessageType.result "RES"⟩
            (busTaken ⟨"u1", "t1", WebSocketMessageType.result "RES"⟩
              (⟨[("r1", ⟨"s1"⟩)], [("t1", "r1")], [], 0⟩ : WSState)).1)) true,
        Action.closeOwn none] ∧
    get_req_id_from_trace_id "t1"
      (run "r1" (⟨[("r1", ⟨"s1"⟩)], [("t1", "r1")], [], 0⟩ : WSState)
        [(LoopInput.bus ⟨"u1", "t1", WebSocketMessageType.result "RES"⟩, true),
          (LoopInput.bus ⟨"u2", "t1", WebSocketMessageType.result "RES2"⟩, true)]).state =
      none ∧
    step "r1" true
      (run "r1" (⟨[("r1", ⟨"s1"⟩)], [("t1", "r1")], [], 0⟩ : WSState)
        [(LoopInput.bus ⟨"u1", "t1", WebSocketMessageType.result "RES"⟩, true),
          (LoopInput.bus ⟨"u2", "t1", WebSocketMessageType.result "RES2"⟩, true)]).state
      (LoopInput.bus ⟨"u2", "t1", WebSocketMessageType.result "RES2"⟩) =
      StepRes.cont
        (run "r1" (⟨[("r1", ⟨"s1"⟩)], [("t1", "r1")], [], 0⟩ : WSState)
          [(LoopInput.bus ⟨"u1", "t1", WebSocketMessageType.result "RES"⟩, true),
            (LoopInput.bus ⟨"u2", "t1", WebSocketMessageType.result "RES2"⟩, true)]).state
        [Action.logError "no session"] :=
  c2_at_most_once_delivery "r1" ⟨[("r1", ⟨"s1"⟩)], [("t1", "r1")], [], 0⟩
    ⟨"u1", "t1", WebSocketMessageType.result "RES"⟩
    ⟨"u2", "t1", WebSocketMessageType.result "RES2"⟩ "r1" ⟨"s1"⟩ rfl rfl rfl

/-- C3: the loop exits after the first successfully delivered event — a
continuing iteration has performed no successful text delivery, and over
any finite input trace the loop performs at most one successful text
delivery in its lifetime. -/
theorem c3_single_terminal_delivery :
    (∀ requestId sendOk st inp,
      (step requestId sendOk st inp).isCont = true →
      (step requestId sendOk st inp).out.countP Action.isOkSend = 0) ∧
    ∀ requestId st inputs,
      (run requestId st inputs).out.countP Action.isOkSend ≤ 1 :=
  ⟨step_cont_no_send, run_at_most_one_send⟩

/-- C3 witness: a continuing iteration (a protocol-error item) at a
concrete state has no successful delivery. -/
theorem c3_witness :
    (step "r1" true (⟨[], [], [], 0⟩ : WSState)
        (LoopInput.client none)).isCont = true ∧
    (step "r1" true (⟨[], [], [], 0⟩ : WSState)
        (LoopInput.client none)).out.countP Action.isOkSend = 0 :=
  ⟨rfl, c3_single_terminal_delivery.1 "r1" true ⟨[], [], [], 0⟩
    (LoopInput.client none) rfl⟩

/-- C4: with a live session resolved for the trace of the event, an
enqueued event with a cached query for its trace is delivered as the event
with that query merged into its payload; an enqueued event with no cache
entry is delivered serialized unmodified; an event of any other payload
variant is delivered serialized unmodified. -/
theorem c4_query_merge (rid0 : String) (st : WSState) (e : WSEvent)
    (reqId : String) (sess : Session)
    (h1 : get_req_id_from_trace_id e.trace_id st = some reqId)
    (h2 : get_ws_session_by_req_id reqId st = some sess) :
    (∀ oq q, e.payload = WebSocketMessageType.queryEnqueued oq →
      st.queryCache.lookup e.trace_id = some q →
      (step rid0 true st (LoopInput.bus e)).out =
        [Action.sendText sess (serializeEvent (WSEvent.update_payload e q)) true]) ∧
    (∀ oq, e.payload = WebSocketMessageType.queryEnqueued oq →
      st.queryCache.lookup e.trace_id = none →
      (step rid0 true st (LoopInput.bus e)).out =
        [Action.sendText sess (serializeEvent e) true]) ∧
    ∀ body, e.payload = WebSocketMessageType.result body →
      (step rid0 true st (LoopInput.bus e)).out =
        [Action.sendText sess (serializeEvent e) true] := by
  have hs := step_bus_found rid0 true st e reqId sess h1 h2
  refine ⟨?_, ?_, ?_⟩
  · intro oq q hp hq
    rw [hs, busTaken_enqueued_hit e st oq q hp hq]
    rfl
  · intro oq hp hq
    rw [hs, busTaken_enqueued_miss e st oq hp hq]
    rfl
  · intro body hp
    rw [hs, busTaken_result e st body hp]
    rfl

/-- C4 witness: trace t1 registered with cached query QX; the enqueued
event for t1 is delivered with QX merged into its payload. -/
theorem c4_witness :
    (step "r1" true (⟨[("r1", ⟨"s1"⟩)], [("t1", "r1")], [("t1", "QX")], 0⟩ : WSState)
        (LoopInput.bus ⟨"u1", "t1", WebSocketMessageType.queryEnqueued none⟩)).out =
      [Action.sendText ⟨"s1"⟩
          (serializeEvent (WSEvent.update_payload
            ⟨"u1", "t1", WebSocketMessageType.queryEnqueued none⟩ "QX")) true] :=
  (c4_query_merge "r1" ⟨[("r1", ⟨"s1"⟩)], [("t1", "r1")], [("t1", "QX")], 0⟩
    ⟨"u1", "t1", WebSocketMessageType.queryEnqueued none⟩ "r1" ⟨"s1"⟩
    rfl rfl).1 none "QX" rfl rfl

/-- C5: a supervisor tick terminates the session exactly when more than 30
seconds have elapsed since the last recorded liveness signal; a ping
transmission failure is logged but changes neither the resulting state nor
the termination outcome; on termination the session is removed from the
registry and a best-effort close is sent; and a session whose clock stays
within the 30-second window at every tick is never closed and the registry
is left untouched. -/
theorem c5_liveness_supervisor :
    (∀ uid ok now alive st,
      (aliveness_tick uid ok now alive st).2.2 = true ↔ 30 < now - alive) ∧
    (∀ uid now alive st,
      (aliveness_tick uid false now alive st).1 =
        (aliveness_tick uid true now alive st).1 ∧
      (aliveness_tick uid false now alive st).2.2 =
        (aliveness_tick uid true now alive st).2.2 ∧
      SupAction.logPingFailure ∈ (aliveness_tick uid false now alive st).2.1) ∧
    (∀ uid ok now alive st, 30 < now - alive →
      (aliveness_tick uid ok now alive st).1 =
        remove_from_ws_session_by_req_id uid st ∧
      SupAction.closeOwn ∈ (aliveness_tick uid ok now alive st).2.1 ∧
      (aliveness_tick uid ok now alive st).2.2 = true) ∧
    ∀ uid st ticks, (∀ p ∈ ticks, p.2.1 - p.2.2 ≤ 30) →
      (aliveness_run uid st ticks).2.2 = false ∧
      (aliveness_run uid st ticks).1 = st := by
  refine ⟨?_, ?_, ?_, fun uid st ticks h => aliveness_run_within_window uid st ticks h⟩
  · intro uid ok now alive st
    by_cases h : 30 < now - alive <;> simp [aliveness_tick, h]
  · intro uid now alive st
    by_cases h : 30 < now - alive <;> simp [aliveness_tick, h]
  · intro uid ok now alive st h
    cases ok <;> simp [aliveness_tick, h]

/-- C5 witness: one tick whose clock was refreshed 20 seconds ago neither
terminates nor mutates the registry. -/
theorem c5_witness :
    (aliveness_run "u1" (⟨[("r1", ⟨"s1"⟩)], [], [], 0⟩ : WSState)
        [(true, 40, 20)]).2.2 = false ∧
    (aliveness_run "u1" (⟨[("r1", ⟨"s1"⟩)], [], [], 0⟩ : WSState)
        [(true, 40, 20)]).1 = ⟨[("r1", ⟨"s1"⟩)], [], [], 0⟩ :=
  c5_liveness_supervisor.2.2.2 "u1" ⟨[("r1", ⟨"s1"⟩)], [], [], 0⟩
    [(true, 40, 20)] (by decide)

/-- C8: an inbound text frame whose content does not parse as a valid
client message is logged and discarded — the iteration continues the loop
and the state (session registry, correlation map, query cache, liveness
clock) is untouched. -/
theorem c8_parse_resilience (requestId : String) (sendOk : Bool)
    (st : WSState) :
    step requestId sendOk st
        (LoopInput.client (some (ClientFrame.text none))) =
      StepRes.cont st [Action.logError "parse failure"] :=
  rfl

/-- C10 counterexample: the claim states that after a failed send the
cached query payload of the trace is not removed; but for an enqueued
event the cache entry is consumed before the send, so it is gone even
though the send failed. -/
theorem c10_counterexample :
    (step "r0" false
        (⟨[("r1", ⟨"s1"⟩)], [("t1", "r1")], [("t1", "QX")], 0⟩ : WSState)
        (LoopInput.bus ⟨"u1", "t1", WebSocketMessageType.queryEnqueued none⟩)).state.queryCache
      = [] ∧
    (⟨[("r1", ⟨"s1"⟩)], [("t1", "r1")], [("t1", "QX")], 0⟩ : WSState).queryCache
      = [("t1", "QX")] ∧
    (step "r0" false
        (⟨[("r1", ⟨"s1"⟩)], [("t1", "r1")], [("t1", "QX")], 0⟩ : WSState)
        (LoopInput.bus ⟨"u1", "t1", WebSocketMessageType.queryEnqueued none⟩)).state.queryCache
      ≠ (⟨[("r1", ⟨"s1"⟩)], [("t1", "r1")], [("t1", "QX")], 0⟩ : WSState).queryCache := by
  exact ⟨rfl, rfl, by decide⟩

/-- C10 (amended): when the send of the serialized event to the resolved
session fails, the loop terminates by break with no successful delivery,
and the trace-to-request mapping is left unchanged (retirement happens
only after a successful send); the state is entirely unchanged for
non-enqueued events, but for an enqueued event whose query was cached the
cache entry has already been consumed before the send and is removed even
though the send failed. -/
theorem c10_send_failure_state (rid0 : String) (st : WSState) (e : WSEvent)
    (reqId : String) (sess : Session)
    (h1 : get_req_id_from_trace_id e.trace_id st = some reqId)
    (h2 : get_ws_session_by_req_id reqId st = some sess) :
    step rid0 false st (LoopInput.bus e) =
      StepRes.exitBreak (busTaken e st).2
        [Action.sendText sess (serializeEvent (busData e (busTaken e st).1)) false,
          Action.logError "send error"] ∧
    (busTaken e st).2.traceToReq = st.traceToReq ∧
    (∀ body, e.payload = WebSocketMessageType.result body →
      (busTaken e st).2 = st) ∧
    (∀ oq q, e.payload = WebSocketMessageType.queryEnqueued oq →
      st.queryCache.lookup e.trace_id = some q →
      (busTaken e st).2.queryCache = assocRemove e.trace_id st.queryCache) ∧
    (step rid0 false st (LoopInput.bus e)).out.countP Action.isOkSend = 0 := by
  have hs := step_bus_found rid0 false st e reqId sess h1 h2
  refine ⟨hs, (busTaken_preserves e st).2.1, ?_, ?_, ?_⟩
  · intro body hp
    rw [busTaken_result e st body hp]
  · intro oq q hp hq
    rw [busTaken_enqueued_hit e st oq q hp hq]
  · rw [hs]
    simp [StepRes.out, List.countP_cons, Action.isOkSend]

/-- C10 witness: a failed send for a plain result event terminates the
loop with the correlation map unchanged. -/
theorem c10_witness :
    step "r0" false (⟨[("r1", ⟨"s1"⟩)], [("t1", "r1")], [], 0⟩ : WSState)
        (LoopInput.bus ⟨"u1", "t1", WebSocketMessageType.result "RES"⟩) =
      StepRes.exitBreak
        (busTaken ⟨"u1", "t1", WebSocketMessageType.result "RES"⟩
          (⟨[("r1", ⟨"s1"⟩)], [("t1", "r1")], [], 0⟩ : WSState)).2
        [Action.sendText ⟨"s1"⟩
            (serializeEvent (busData ⟨"u1", "t1", WebSocketMessageType.result "RES"⟩
              (busTaken ⟨"u1", "t1", WebSocketMessageType.result "RES"⟩
                (⟨[("r1", ⟨"s1"⟩)], [("t1", "r1")], [], 0⟩ : WSState)).1)) false,
          Action.logError "send error"] ∧
    (busTaken ⟨"u1", "t1", WebSocketMessageType.result "RES"⟩
        (⟨[("r1", ⟨"s1"⟩)], [("t1", "r1")], [], 0⟩ : WSState)).2.traceToReq =
      (⟨[("r1", ⟨"s1"⟩)], [("t1", "r1")], [], 0⟩ : WSState).traceToReq :=
  ⟨(c10_send_failure_state "r0" ⟨[("r1", ⟨"s1"⟩)], [("t1", "r1")], [], 0⟩
      ⟨"u1", "t1", WebSocketMessageType.result "RES"⟩ "r1" ⟨"s1"⟩ rfl rfl).1,
    (c10_send_failure_state "r0" ⟨[("r1", ⟨"s1"⟩)], [("t1", "r1")], [], 0⟩
      ⟨"u1", "t1", WebSocketMessageType.result "RES"⟩ "r1" ⟨"s1"⟩ rfl rfl).2.1⟩

end OO
